import Mathlib

/-!
Verification development for the cfglaze repository's token-budget and
rate-limiting core (`src/app/api/lib/token-management.ts`,
`src/app/api/glaze-profile/route.ts`, `src/app/api/glaze-code/route.ts`,
and the reset-tokens route).

The Vercel KV store is modelled as an abstract client interface over an
opaque state type; a faithful (last-write-wins) instantiation over
`String → KVValue` is used for claims that stipulate a well-behaved store,
and adversarial instantiations for claims about verification failure.
Stored JSON values are modelled by the `KVValue` inductive.  Time
(`Date.now()`) is threaded as an explicit integer parameter: every store
operation belonging to one top-level call is modelled as happening at that
call's instant (the retry back-off delays of 100-200 ms only matter
relative to the 5000 ms cache TTL, and no claim depends on them).
-/

namespace CfGlaze

/-- JSON-serializable values held by the KV store: `null` (absent key),
a number, the `{value, timestamp}` cache snapshot object, the
`{count, resetTime}` rate record object of the glaze-code limiter, or any
other (corrupt) value. -/
inductive KVValue where
  | null : KVValue
  | num (n : Int) : KVValue
  | snapshot (value : Int) (timestamp : Int) : KVValue
  | rate (count : Int) (resetTime : Int) : KVValue
  | corrupt : KVValue
deriving DecidableEq, Repr

/-- Abstract interface of the `@vercel/kv` client, over an opaque store
state `σ`.  `get` may also step the state so adversarial stores can be
expressed. -/
structure KVClient (σ : Type) where
  get : String → σ → KVValue × σ
  set : String → KVValue → σ → σ
  del : String → σ → σ

/-- `MAX_DAILY_TOKENS` from token-management.ts (2M tokens daily limit). -/
def MAX_DAILY_TOKENS : Int := 2000000

/-- `TOKEN_KEY` from token-management.ts and the glaze routes. -/
def TOKEN_KEY : String := "global_tokens_used_v3"

/-- `CACHE_KEY` from token-management.ts and the glaze routes. -/
def CACHE_KEY : String := "global_tokens_cache_v3"

/-- `CACHE_TTL` (seconds) from token-management.ts. -/
def CACHE_TTL : Int := 5

/-- `TOKEN_KEY` of the reset-tokens route (src/unnamed/part_006): note it
is the old `global_tokens_used`, not the `_v3` key of the glaze routes. -/
def RESET_TOKEN_KEY : String := "global_tokens_used"

/-- The retry loop of `getGlobalTokensUsed` (token-management.ts lines
24-65), with the remaining attempts as fuel (`fuel = maxAttempts -
attempts`).  The corrupt-data branch resets the counter to 0 when the
attempt budget is exhausted; the failed init-verification branch and loop
exit simply return 0. -/
def getTokensLoop {σ : Type} (C : KVClient σ) (now : Int) : Nat → σ → Int × σ
  | 0, s => (0, s)
  | fuel + 1, s =>
    let r := C.get TOKEN_KEY s
    match r.1 with
    | .null =>
      let s := C.set TOKEN_KEY (.num 0) r.2
      let v := C.get TOKEN_KEY s
      match v.1 with
      | .num n => (n, C.set CACHE_KEY (.snapshot n now) v.2)
      | _ => getTokensLoop C now fuel v.2
    | .num n => (n, C.set CACHE_KEY (.snapshot n now) r.2)
    | _ =>
      if fuel = 0 then
        (0, C.set CACHE_KEY (.snapshot 0 now) (C.set TOKEN_KEY (.num 0) r.2))
      else
        getTokensLoop C now fuel r.2

/-- `getGlobalTokensUsed()` (token-management.ts lines 11-71): return the
cached snapshot when present and younger than `CACHE_TTL` seconds,
otherwise fall back to the verified database read loop.  A cache value of
any other shape falls through exactly like an absent cache (the JS
freshness test on an `undefined` timestamp is false). -/
def getGlobalTokensUsed {σ : Type} (C : KVClient σ) (now : Int) (s : σ) : Int × σ :=
  let c := C.get CACHE_KEY s
  match c.1 with
  | .snapshot v ts =>
    if now - ts < CACHE_TTL * 1000 then (v, c.2) else getTokensLoop C now 3 c.2
  | _ => getTokensLoop C now 3 c.2

/-- The read-modify-write retry loop of `incrementGlobalTokensKV`
(token-management.ts lines 79-114), with remaining attempts as fuel.  The
third failed verification raises the consistency error; the post-loop
generic error is the (unreachable in source, fuel-0 here) fallback. -/
def incrementLoop {σ : Type} (C : KVClient σ) (now amt : Int) :
    Nat → σ → Except String Int × σ
  | 0, s => (.error "Failed to increment tokens after maximum attempts", s)
  | fuel + 1, s =>
    let cur := getGlobalTokensUsed C now s
    let newTotal := cur.1 + amt
    let s := C.set TOKEN_KEY (.num newTotal) cur.2
    let v := C.get TOKEN_KEY s
    if v.1 = .num newTotal then
      (.ok newTotal, C.set CACHE_KEY (.snapshot newTotal now) v.2)
    else
      if fuel = 0 then
        (.error "Consistency verification failed after 3 attempts", v.2)
      else
        incrementLoop C now amt fuel v.2

/-- `incrementGlobalTokensKV(tokensUsed)` (token-management.ts lines
73-120): up to 3 read-modify-write-verify attempts; on success returns the
new total and refreshes the cache snapshot, on persistent mismatch raises
the consistency error. -/
def incrementGlobalTokensKV {σ : Type} (C : KVClient σ) (now amt : Int) (s : σ) :
    Except String Int × σ :=
  incrementLoop C now amt 3 s

/-- `backgroundReconciliation()` (token-management.ts lines 122-140):
delete the cache, re-read the counter; cache a numeric value, otherwise
reset counter and cache to zero. -/
def backgroundReconciliation {σ : Type} (C : KVClient σ) (now : Int) (s : σ) : σ :=
  let s := C.del CACHE_KEY s
  let r := C.get TOKEN_KEY s
  match r.1 with
  | .num n => C.set CACHE_KEY (.snapshot n now) r.2
  | _ => C.set CACHE_KEY (.snapshot 0 now) (C.set TOKEN_KEY (.num 0) r.2)

/-- The `{allowed, message?}` decision value returned by the limit and
rate-limit checks. -/
structure Decision where
  allowed : Bool
  message : Option String
deriving DecidableEq, Repr

/-- `checkGlobalTokenLimit(estimatedTokens)` (token-management.ts lines
142-153, identical local copy in glaze-profile/route.ts lines 487-498). -/
def checkGlobalTokenLimit {σ : Type} (C : KVClient σ) (now est : Int) (s : σ) :
    Decision × σ :=
  let cur := getGlobalTokensUsed C now s
  let currentTokens := cur.1
  if currentTokens + est > MAX_DAILY_TOKENS then
    ({ allowed := false,
       message := some
         s!"Daily token limit reached. Please try again tomorrow. Used: {currentTokens}/{MAX_DAILY_TOKENS}" },
     cur.2)
  else
    ({ allowed := true, message := none }, cur.2)

/-- `checkGlobalTokenLimit` local variant of glaze-code/route.ts lines
212-229 (same logic, shorter message; its catch-all is unreachable against
a total store model). -/
def checkGlobalTokenLimitCode {σ : Type} (C : KVClient σ) (now est : Int) (s : σ) :
    Decision × σ :=
  let cur := getGlobalTokensUsed C now s
  if cur.1 + est > MAX_DAILY_TOKENS then
    ({ allowed := false,
       message := some "Daily token limit reached. Please try again tomorrow." },
     cur.2)
  else
    ({ allowed := true, message := none }, cur.2)

/-- The faithful store: keys map to the last value written (`null` when
never written), exactly the store model stipulated by the sequential
claims. -/
def FaithfulStore : Type := String → KVValue

/-- The faithful KV client over `FaithfulStore`. -/
def faithful : KVClient FaithfulStore where
  get k s := (s k, s)
  set k v s := fun q => if q = k then v else s q
  del k s := fun q => if q = k then .null else s q

/-- `Math.ceil(a / b)` on integers, for a positive divisor `b`
(`ceil x = -floor (-x)`, with `Int.fdiv` as floor division). -/
def jsCeil (a b : Int) : Int := -(Int.fdiv (-a) b)

/-- Does `pat` occur at the head of the character list? (helper for the
model of JavaScript `String.prototype.includes`). -/
def charListLeads : List Char → List Char → Bool
  | [], _ => true
  | _ :: _, [] => false
  | p :: ps, c :: cs => p = c && charListLeads ps cs

/-- Does `pat` occur anywhere in the character list? -/
def charListHas (pat : List Char) : List Char → Bool
  | [] => charListLeads pat []
  | c :: cs => charListLeads pat (c :: cs) || charListHas pat cs

/-- Model of JavaScript `s.includes(pat)`. -/
def jsIncludes (s pat : String) : Bool := charListHas pat.data s.data

/-- The decimal digit characters. -/
def digitChar : Nat → Char
  | 0 => '0' | 1 => '1' | 2 => '2' | 3 => '3' | 4 => '4'
  | 5 => '5' | 6 => '6' | 7 => '7' | 8 => '8' | _ => '9'

/-- Decimal digits of `n` (fuel-structural so that it reduces inside the
kernel, unlike the well-founded recursion behind `toString`). -/
def natDecAux : Nat → Nat → List Char
  | 0, _ => []
  | fuel + 1, n =>
    if n < 10 then [digitChar n]
    else natDecAux fuel (n / 10) ++ [digitChar (n % 10)]

/-- Decimal rendering of a natural number. -/
def natDec (n : Nat) : String := ⟨natDecAux (n + 1) n⟩

/-- Decimal rendering of an integer (the JS template interpolation of the
window index). -/
def intDec (i : Int) : String :=
  if i < 0 then "-" ++ natDec (-i).toNat else natDec i.toNat

/-- The rate-record key of the glaze-profile limiter
(glaze-profile/route.ts line 584): client ip and the epoch-aligned 24-hour
window index, under the `ip_limit:` namespace. -/
def profileRateKey (ip : String) (now : Int) : String :=
  "ip_limit:" ++ ip ++ ":" ++ intDec (Int.fdiv now 86400000)

/-- `checkIPRateLimit` of glaze-profile/route.ts lines 574-606: plain
counter under the windowed key, max 8 per day, fixed denial message; skips
entirely in development.  A stored value that is neither absent nor a
number is an object in JS: both comparisons against it are false and the
write corrupts the record (modelled by `.corrupt`). -/
def checkIPRateLimitProfile {σ : Type} (isDev : Bool) (C : KVClient σ)
    (ip : String) (now : Int) (s : σ) : Decision × σ :=
  if isDev then ({ allowed := true, message := none }, s)
  else
    let key := profileRateKey ip now
    let r := C.get key s
    match r.1 with
    | .null =>
      ({ allowed := true, message := none }, C.set key (.num 1) r.2)
    | .num current =>
      if current ≥ 8 then
        ({ allowed := false,
           message := some "Daily request limit exceeded for this IP. You can make 8 requests per day." },
         r.2)
      else
        ({ allowed := true, message := none }, C.set key (.num (current + 1)) r.2)
    | _ =>
      ({ allowed := true, message := none }, C.set key .corrupt r.2)

/-- The rate-record key of the glaze-code limiter (glaze-code/route.ts
line 318), under the `ip_rate_limit:` namespace. -/
def codeRateKey (ip : String) : String := "ip_rate_limit:" ++ ip

/-- `checkIPRateLimit` of glaze-code/route.ts lines 316-350: a
`{count, resetTime}` record, max 4 per day, denial message carrying
`Math.ceil((resetTime - now) / 3600000)` hours remaining.  A stored value
of any other non-null shape compares false on both guards and the write
corrupts the record. -/
def checkIPRateLimitCode {σ : Type} (C : KVClient σ) (ip : String) (now : Int)
    (s : σ) : Decision × σ :=
  let key := codeRateKey ip
  let r := C.get key s
  match r.1 with
  | .null =>
    ({ allowed := true, message := none },
     C.set key (.rate 1 (now + 86400000)) r.2)
  | .rate count resetTime =>
    if resetTime < now then
      ({ allowed := true, message := none },
       C.set key (.rate 1 (now + 86400000)) r.2)
    else if count ≥ 4 then
      let timeRemaining := jsCeil (resetTime - now) 3600000
      ({ allowed := false,
         message := some
           s!"Rate limit exceeded. Please try again in approximately {timeRemaining} hours." },
       r.2)
    else
      ({ allowed := true, message := none },
       C.set key (.rate (count + 1) resetTime) r.2)
  | _ =>
    ({ allowed := true, message := none }, C.set key .corrupt r.2)

/-- The parts of an inbound HTTP request that the handlers consume.
`originOk` and `userAgentOk` record the boolean outcomes of
`validateRequestOrigin` / `validateUserAgent` (pure header-pattern
predicates whose internals no claim depends on); `contentLength` is the
parsed content-length header when present; `honeypot` is `""` when the
field is absent or empty (both falsy in JS); `username` / `code` are the
body fields, `none` when absent. -/
structure Request where
  contentLength : Option Int
  clientIP : String
  originOk : Bool
  userAgentOk : Bool
  honeypot : String
  username : Option String
  code : Option String
deriving DecidableEq, Repr

/-- Environment configuration consumed by the handlers. -/
structure Env where
  isDev : Bool
  hasOpenAIKey : Bool
  resetSecret : Option String
deriving DecidableEq, Repr

/-- Results of the outbound network calls, supplied as an oracle so the
handlers stay pure: whether the Codeforces user lookup succeeds, the
estimated token usage computed from the formatted profile text, the
token usage reported by the completion provider, the generated text, and
the `Math.random() < 0.1` reconciliation draw. -/
structure Oracle where
  profileFound : Bool
  estimatedTokens : Int
  completionTokens : Int
  glazeContent : String
  runReconciliation : Bool
deriving DecidableEq, Repr

/-- External calls a handler run performs, in order. -/
inductive Effect where
  | codeforcesProfileFetch
  | codeforcesSubmissionsFetch
  | openaiCompletion
deriving DecidableEq, Repr

/-- The parts of a JSON HTTP response the claims talk about. -/
structure Response where
  status : Nat
  error : Option String
  glaze : Option String
  tokensUsed : Option Int
deriving DecidableEq, Repr

/-- A 200 response with the given success body fields. -/
def okResponse (glaze : String) (tokensUsed : Int) : Response :=
  { status := 200, error := none, glaze := some glaze, tokensUsed := some tokensUsed }

/-- An error response with the given status and message. -/
def errResponse (status : Nat) (msg : String) : Response :=
  { status := status, error := some msg, glaze := none, tokensUsed := none }

/-- JS `String.prototype.trim`: strip whitespace from both ends. -/
def jsTrim (s : String) : String :=
  ⟨((s.data.dropWhile Char.isWhitespace).reverse.dropWhile Char.isWhitespace).reverse⟩

/-- The character class of the Codeforces username pattern
`/^[a-zA-Z0-9_.-]+$/` (glaze-profile/route.ts line 676). -/
def validUsernameChar (c : Char) : Bool :=
  c.isAlpha || c.isDigit || c = '_' || c = '.' || c = '-'

/-- `estimateTokenUsage(codeContent)` of glaze-code/route.ts lines
207-210: `Math.ceil(length / 4) + 1000`. -/
def estimateTokenUsageCode (codeContent : String) : Int :=
  jsCeil codeContent.length 4 + 1000

/-- `POST` of glaze-profile/route.ts lines 608-762.  The pipeline in
source order: content-length ceiling, IP rate limit, origin check,
user-agent check, honeypot, username validation, API-key configuration,
pre-flight budget check (fixed 2500 estimate), Codeforces profile fetch
(failure is caught as 404), submissions fetch, second budget check with
the estimate from the formatted profile, completion call, probabilistic
background reconciliation, counter increment (a consistency error is
caught as 500), success body.  Returns the response, the external calls
made (in order) and the final store state. -/
def glazeProfilePOST {σ : Type} (env : Env) (O : Oracle) (C : KVClient σ)
    (req : Request) (now : Int) (s : σ) : Response × List Effect × σ :=
  if (match req.contentLength with | some n => decide (n > 1024) | none => false) then
    (errResponse 413 "Request too large", [], s)
  else
    let rate := checkIPRateLimitProfile env.isDev C req.clientIP now s
    if rate.1.allowed = false then
      (errResponse 429 (rate.1.message.getD ""), [], rate.2)
    else if req.originOk = false then
      (errResponse 403 "Invalid request origin", [], rate.2)
    else if req.userAgentOk = false then
      (errResponse 403 "Invalid request", [], rate.2)
    else if req.honeypot ≠ "" then
      (errResponse 400 "Invalid request", [], rate.2)
    else
      match req.username with
      | none => (errResponse 400 "Username is required", [], rate.2)
      | some username =>
        if username = "" then
          (errResponse 400 "Username is required", [], rate.2)
        else
          let trimmedUsername := jsTrim username
          if trimmedUsername.length < 1 ∨ trimmedUsername.length > 24 then
            (errResponse 400 "Username must be between 1 and 24 characters", [], rate.2)
          else if ¬ trimmedUsername.data.all validUsernameChar then
            (errResponse 400 "Username contains invalid characters", [], rate.2)
          else if env.hasOpenAIKey = false then
            (errResponse 500 "OpenAI API key not configured", [], rate.2)
          else
            let pre := checkGlobalTokenLimit C now 2500 rate.2
            if pre.1.allowed = false then
              (errResponse 429 (pre.1.message.getD ""), [], pre.2)
            else if O.profileFound = false then
              (errResponse 404 "User not found", [.codeforcesProfileFetch], pre.2)
            else
              let chk := checkGlobalTokenLimit C now O.estimatedTokens pre.2
              if chk.1.allowed = false then
                (errResponse 429 (chk.1.message.getD ""),
                 [.codeforcesProfileFetch, .codeforcesSubmissionsFetch], chk.2)
              else
                let s1 := if O.runReconciliation then
                    backgroundReconciliation C now chk.2
                  else chk.2
                let inc := incrementGlobalTokensKV C now O.completionTokens s1
                match inc.1 with
                | .error e =>
                  (errResponse (if jsIncludes e "not found" then 404 else 500) e,
                   [.codeforcesProfileFetch, .codeforcesSubmissionsFetch,
                    .openaiCompletion], inc.2)
                | .ok _ =>
                  (okResponse O.glazeContent O.completionTokens,
                   [.codeforcesProfileFetch, .codeforcesSubmissionsFetch,
                    .openaiCompletion], inc.2)

/-- The canned honeypot body of glaze-code/route.ts lines 383-386. -/
def cannedCodeGlaze : String :=
  "Your code looks absolutely amazing! What a fantastic algorithm and implementation!"

/-- `POST` of glaze-code/route.ts lines 352-405 with `generateCodeGlaze`
(lines 138-205) inlined at its call site.  Pipeline in source order:
origin check, user-agent check, IP rate limit, `code` field required,
honeypot (canned 200 success), then inside `generateCodeGlaze`: estimate,
budget check (denial is thrown and caught as 429 since the message
contains "limit"), completion call (`usage.total_tokens || estimate`),
counter increment (a consistency error is caught; 500 since its message
lacks "limit"). -/
def glazeCodePOST {σ : Type} (_env : Env) (O : Oracle) (C : KVClient σ)
    (req : Request) (now : Int) (s : σ) : Response × List Effect × σ :=
  if req.originOk = false then
    (errResponse 403 "Invalid request origin", [], s)
  else if req.userAgentOk = false then
    (errResponse 403 "Invalid user agent", [], s)
  else
    let rate := checkIPRateLimitCode C req.clientIP now s
    if rate.1.allowed = false then
      (errResponse 429 (rate.1.message.getD ""), [], rate.2)
    else
      match req.code with
      | none => (errResponse 400 "Code is required", [], rate.2)
      | some code =>
        if code = "" then
          (errResponse 400 "Code is required", [], rate.2)
        else if req.honeypot ≠ "" then
          (okResponse cannedCodeGlaze 0, [], rate.2)
        else
          let estimatedTokens := estimateTokenUsageCode code
          let chk := checkGlobalTokenLimitCode C now estimatedTokens rate.2
          if chk.1.allowed = false then
            let e := chk.1.message.getD "Token limit exceeded"
            (errResponse (if jsIncludes e "limit" then 429 else 500) e, [], chk.2)
          else
            let tokensUsed := if O.completionTokens = 0 then estimatedTokens
              else O.completionTokens
            let inc := incrementGlobalTokensKV C now tokensUsed chk.2
            match inc.1 with
            | .error e =>
              (errResponse (if jsIncludes e "limit" then 429 else 500) e,
               [.openaiCompletion], inc.2)
            | .ok _ =>
              (okResponse O.glazeContent tokensUsed, [.openaiCompletion], inc.2)

/-- `POST` of the reset-tokens route (src/unnamed/part_006): requires a
non-empty body secret (400), a configured `TOKEN_RESET_SECRET` (500) and
a match (else 401); on a match writes 0 to `RESET_TOKEN_KEY`
(`global_tokens_used`) and answers a success body with `tokensUsed: 0`. -/
def resetTokensPOST {σ : Type} (env : Env) (secret : Option String)
    (C : KVClient σ) (s : σ) : Response × σ :=
  match secret with
  | none => (errResponse 400 "Secret is required", s)
  | some sec =>
    if sec = "" then (errResponse 400 "Secret is required", s)
    else
      match env.resetSecret with
      | none => (errResponse 500 "Reset secret not configured", s)
      | some conf =>
        if sec ≠ conf then (errResponse 401 "Invalid secret", s)
        else
          ({ status := 200, error := none, glaze := none, tokensUsed := some 0 },
           C.set RESET_TOKEN_KEY (.num 0) s)

/-- The store holds the counter value `v` and any cached snapshot agrees
with it (the consistent states the counter machinery re-establishes after
every successful operation). -/
def Synced (s : FaithfulStore) (v : Int) : Prop :=
  s TOKEN_KEY = .num v ∧ ∀ w ts, s CACHE_KEY = .snapshot w ts → w = v

/-- The store starts with an absent-or-zero counter and no cache
snapshot. -/
def GoodStart (s : FaithfulStore) : Prop :=
  (s TOKEN_KEY = .null ∨ s TOKEN_KEY = .num 0) ∧ s CACHE_KEY = .null

/-- Either a consistent store tracking `v`, or a fresh store (tracking
zero). -/
def Tracks (s : FaithfulStore) (v : Int) : Prop :=
  Synced s v ∨ (v = 0 ∧ GoodStart s)

/-- Run a sequence of `incrementGlobalTokensKV(amount)` calls, each at its
own instant, sequentially against the faithful store; `none` as soon as
one of them raises. -/
def runIncrements : List (Int × Int) → FaithfulStore → Option FaithfulStore
  | [], s => some s
  | (t, a) :: rest, s =>
    match incrementGlobalTokensKV faithful t a s with
    | (.ok _, s') => runIncrements rest s'
    | (.error _, _) => none

/-- A client on which every read of the counter key performed directly
after a write of `v` to it answers something other than `v`: the
"always-mismatching verification" stores of the consistency-error claim. -/
def MismatchClient {σ : Type} (C : KVClient σ) : Prop :=
  ∀ (v : Int) (s : σ), (C.get TOKEN_KEY (C.set TOKEN_KEY (.num v) s)).1 ≠ .num v

/-- Store effect of one failed read-modify-write-verify attempt of
`incrementGlobalTokensKV`: read the current value, write the new total,
read it back (no cache refresh on the failure path). -/
def incFailStep {σ : Type} (C : KVClient σ) (now amt : Int) (s : σ) : σ :=
  let cur := getGlobalTokensUsed C now s
  (C.get TOKEN_KEY (C.set TOKEN_KEY (.num (cur.1 + amt)) cur.2)).2

/-- State of the concrete mismatching store: the last value written to the
counter key and how many counter writes happened. -/
structure AdvState where
  lastWrite : Int
  writes : Nat
deriving DecidableEq, Repr

/-- A concrete adversarial client: reading the counter always answers one
more than the last value written to it, so every verification read
mismatches; the cache reads as absent and all other writes are ignored. -/
def advClient : KVClient AdvState where
  get k s := if k = TOKEN_KEY then (.num (s.lastWrite + 1), s) else (.null, s)
  set k v s :=
    if k = TOKEN_KEY then
      match v with
      | .num n => { lastWrite := n, writes := s.writes + 1 }
      | _ => s
    else s
  del _ s := s

/-- Run an interleaving of glaze-profile (true) and glaze-code (false)
rate-limiter admissions for one client at one instant against the
faithful store, reporting whether every one of them was allowed. -/
def runMixed (ip : String) (now : Int) : List Bool → FaithfulStore → Bool × FaithfulStore
  | [], s => (true, s)
  | b :: rest, s =>
    let d := if b then checkIPRateLimitProfile false faithful ip now s
      else checkIPRateLimitCode faithful ip now s
    let r := runMixed ip now rest d.2
    (d.1.allowed && r.1, r.2)

/-- Run `n` glaze-profile rate-limiter admissions for one client at one
instant, returning the final store. -/
def runProfileRate (ip : String) (now : Int) : Nat → FaithfulStore → FaithfulStore
  | 0, s => s
  | n + 1, s => runProfileRate ip now n (checkIPRateLimitProfile false faithful ip now s).2

/-- Run `n` glaze-code rate-limiter admissions for one client at one
instant, returning the final store. -/
def runCodeRate (ip : String) (now : Int) : Nat → FaithfulStore → FaithfulStore
  | 0, s => s
  | n + 1, s => runCodeRate ip now n (checkIPRateLimitCode faithful ip now s).2

/-- The empty store: every key absent. -/
def storeEmpty : FaithfulStore := fun _ => .null

/-- A store holding only the counter, at 5 tokens. -/
def storeTok5 : FaithfulStore := fun k => if k = TOKEN_KEY then .num 5 else .null

/-- A store holding only the counter, at 10 tokens. -/
def storeTok10 : FaithfulStore := fun k => if k = TOKEN_KEY then .num 10 else .null

/-- A store whose counter is at 100 but whose cache snapshot (written at
time 0) claims 5: the two counter keys disagree. -/
def storeStaleCache : FaithfulStore := fun k =>
  if k = TOKEN_KEY then .num 100
  else if k = CACHE_KEY then .snapshot 5 0
  else .null

/-- A store holding only the counter, at 100 tokens. -/
def storeTok100 : FaithfulStore := fun k => if k = TOKEN_KEY then .num 100 else .null

/-- A store holding only the counter, 10 tokens below the daily limit. -/
def storeNearLimit : FaithfulStore := fun k =>
  if k = TOKEN_KEY then .num 1999990 else .null

/-- Production environment with a completion key and no reset secret. -/
def envProd : Env := { isDev := false, hasOpenAIKey := true, resetSecret := none }

/-- Production environment whose reset secret is configured. -/
def envReset : Env := { isDev := false, hasOpenAIKey := true, resetSecret := some "s3cr3t" }

/-- A benign oracle: profile found, default estimates, 700 tokens
reported, no reconciliation draw. -/
def oracleBase : Oracle :=
  { profileFound := true
    estimatedTokens := 2500
    completionTokens := 700
    glazeContent := "WOW"
    runReconciliation := false }

/-- A browser-like request that passes every gatekeeper check. -/
def reqClean : Request :=
  { contentLength := some 100
    clientIP := "1.2.3.4"
    originOk := true
    userAgentOk := true
    honeypot := ""
    username := some "tourist"
    code := some "int main" }

/-- `reqClean` with the hidden honeypot field filled. -/
def reqHoneypot : Request := { reqClean with honeypot := "bot" }

/-- `reqClean` arriving from a disallowed origin. -/
def reqBadOrigin : Request := { reqClean with originOk := false }

theorem fget (k : String) (s : FaithfulStore) : faithful.get k s = (s k, s) := rfl

theorem fset (k : String) (v : KVValue) (s : FaithfulStore) (q : String) :
    (faithful.set k v s) q = if q = k then v else s q := rfl

theorem fdel (k : String) (s : FaithfulStore) (q : String) :
    (faithful.del k s) q = if q = k then .null else s q := rfl

theorem token_ne_cache : TOKEN_KEY ≠ CACHE_KEY := by decide

theorem cache_ne_token : CACHE_KEY ≠ TOKEN_KEY := by decide

theorem loop_of_num {s : FaithfulStore} {n : Int} (now : Int) (fuel : Nat)
    (h : s TOKEN_KEY = .num n) :
    getTokensLoop faithful now (fuel + 1) s =
      (n, faithful.set CACHE_KEY (.snapshot n now) s) := by
  simp only [getTokensLoop, fget, h]

theorem loop_of_null {s : FaithfulStore} (now : Int) (fuel : Nat)
    (h : s TOKEN_KEY = .null) :
    getTokensLoop faithful now (fuel + 1) s =
      (0, faithful.set CACHE_KEY (.snapshot 0 now)
            (faithful.set TOKEN_KEY (.num 0) s)) := by
  simp only [getTokensLoop, fget, fset, h, if_pos]

theorem synced_set_cache {s : FaithfulStore} {v : Int} (now : Int)
    (h : s TOKEN_KEY = .num v) :
    Synced (faithful.set CACHE_KEY (.snapshot v now) s) v := by
  constructor
  · rw [fset, if_neg token_ne_cache, h]
  · intro w ts hw
    rw [fset, if_pos rfl] at hw
    injection hw with h1 h2
    exact h1.symm

theorem getUsed_synced {s : FaithfulStore} {v : Int} (now : Int) (h : Synced s v) :
    (getGlobalTokensUsed faithful now s).1 = v ∧
    Synced (getGlobalTokensUsed faithful now s).2 v ∧
    ∀ k, k ≠ CACHE_KEY → (getGlobalTokensUsed faithful now s).2 k = s k := by
  obtain ⟨ht, hca⟩ := h
  have hframe : ∀ k, k ≠ CACHE_KEY →
      (faithful.set CACHE_KEY (.snapshot v now) s) k = s k := by
    intro k hk
    rw [fset, if_neg hk]
  rcases hcc : s CACHE_KEY with _ | n | ⟨w, ts⟩ | ⟨c, r⟩ | _
  · simp only [getGlobalTokensUsed, fget, hcc, loop_of_num now 2 ht]
    exact ⟨by simp, synced_set_cache now ht, hframe⟩
  · simp only [getGlobalTokensUsed, fget, hcc, loop_of_num now 2 ht]
    exact ⟨by simp, synced_set_cache now ht, hframe⟩
  · have hw := hca w ts hcc
    subst hw
    simp only [getGlobalTokensUsed, fget, hcc]
    by_cases hfresh : now - ts < CACHE_TTL * 1000
    · simp only [if_pos hfresh]
      exact ⟨by simp, ⟨ht, hca⟩, fun k _ => by simp⟩
    · simp only [if_neg hfresh, loop_of_num now 2 ht]
      exact ⟨by simp, synced_set_cache now ht, hframe⟩
  · simp only [getGlobalTokensUsed, fget, hcc, loop_of_num now 2 ht]
    exact ⟨by simp, synced_set_cache now ht, hframe⟩
  · simp only [getGlobalTokensUsed, fget, hcc, loop_of_num now 2 ht]
    exact ⟨by simp, synced_set_cache now ht, hframe⟩

theorem getUsed_goodStart {s : FaithfulStore} (now : Int) (h : GoodStart s) :
    (getGlobalTokensUsed faithful now s).1 = 0 ∧
    Synced (getGlobalTokensUsed faithful now s).2 0 := by
  obtain ⟨ht, hc⟩ := h
  rcases ht with ht | ht
  · have hset : (faithful.set TOKEN_KEY (.num 0) s) TOKEN_KEY = .num 0 := by
      rw [fset, if_pos rfl]
    simp only [getGlobalTokensUsed, fget, hc, loop_of_null now 2 ht]
    exact ⟨by simp, synced_set_cache now hset⟩
  · simp only [getGlobalTokensUsed, fget, hc, loop_of_num now 2 ht]
    exact ⟨by simp, synced_set_cache now ht⟩

theorem getUsed_tracks {s : FaithfulStore} {v : Int} (now : Int) (h : Tracks s v) :
    (getGlobalTokensUsed faithful now s).1 = v ∧
    Synced (getGlobalTokensUsed faithful now s).2 v := by
  rcases h with h | ⟨hv, h⟩
  · exact ⟨(getUsed_synced now h).1, (getUsed_synced now h).2.1⟩
  · subst hv
    exact getUsed_goodStart now h

theorem increment_tracks {s : FaithfulStore} {v : Int} (now a : Int) (h : Tracks s v) :
    (incrementGlobalTokensKV faithful now a s).1 = .ok (v + a) ∧
    Synced (incrementGlobalTokensKV faithful now a s).2 (v + a) := by
  obtain ⟨h1, h2⟩ := getUsed_tracks now h
  have hpair : getGlobalTokensUsed faithful now s =
      (v, (getGlobalTokensUsed faithful now s).2) := by
    rw [← h1]
  have hver : (faithful.get TOKEN_KEY (faithful.set TOKEN_KEY (.num (v + a))
      (getGlobalTokensUsed faithful now s).2)).1 = .num (v + a) := by
    rw [fget, fset, if_pos rfl]
  have htok : (faithful.set TOKEN_KEY (.num (v + a))
      (getGlobalTokensUsed faithful now s).2) TOKEN_KEY = .num (v + a) := by
    rw [fset, if_pos rfl]
  show (incrementLoop faithful now a 3 s).1 = .ok (v + a) ∧
    Synced (incrementLoop faithful now a 3 s).2 (v + a)
  have : incrementLoop faithful now a 3 s =
      (.ok (v + a), faithful.set CACHE_KEY (.snapshot (v + a) now)
        (faithful.set TOKEN_KEY (.num (v + a))
          (getGlobalTokensUsed faithful now s).2)) := by
    conv_lhs => rw [show (3 : Nat) = 2 + 1 from rfl]
    simp only [incrementLoop]
    rw [hpair]
    simp only [fget, fset, if_pos rfl, if_true]
  rw [this]
  exact ⟨rfl, synced_set_cache now htok⟩

theorem runIncrements_tracks :
    ∀ (calls : List (Int × Int)) (s : FaithfulStore) (v : Int), Tracks s v →
    ∃ s', runIncrements calls s = some s' ∧
      Tracks s' (v + (calls.map Prod.snd).sum) := by
  intro calls
  induction calls with
  | nil =>
    intro s v h
    exact ⟨s, rfl, by simpa using h⟩
  | cons hd tl ih =>
    intro s v h
    obtain ⟨h1, h2⟩ := increment_tracks hd.1 hd.2 h
    obtain ⟨s', hrun, htr⟩ := ih (incrementGlobalTokensKV faithful hd.1 hd.2 s).2
      (v + hd.2) (Or.inl h2)
    refine ⟨s', ?_, ?_⟩
    · show (match incrementGlobalTokensKV faithful hd.1 hd.2 s with
        | (.ok _, s') => runIncrements tl s'
        | (.error _, _) => none) = some s'
      rw [show incrementGlobalTokensKV faithful hd.1 hd.2 s =
        (.ok (v + hd.2), (incrementGlobalTokensKV faithful hd.1 hd.2 s).2) from by
          rw [← h1]]
      exact hrun
    · simpa [add_assoc] using htr

theorem loop_frame (now : Int) :
    ∀ (fuel : Nat) (s : FaithfulStore) (k : String), k ≠ TOKEN_KEY → k ≠ CACHE_KEY →
    (getTokensLoop faithful now fuel s).2 k = s k := by
  intro fuel
  induction fuel with
  | zero => intro s k _ _; rfl
  | succ n ih =>
    intro s k hk1 hk2
    rcases ht : s TOKEN_KEY with _ | m | ⟨w, ts⟩ | ⟨c, r⟩ | _
    · rw [loop_of_null now n ht]
      simp only [fset, if_neg hk2, if_neg hk1]
    · rw [loop_of_num now n ht]
      simp only [fset, if_neg hk2]
    · simp only [getTokensLoop, fget, ht]
      by_cases hn : n = 0
      · subst hn
        simp [fset, hk1, hk2]
      · rw [if_neg hn]
        exact ih s k hk1 hk2
    · simp only [getTokensLoop, fget, ht]
      by_cases hn : n = 0
      · subst hn
        simp [fset, hk1, hk2]
      · rw [if_neg hn]
        exact ih s k hk1 hk2
    · simp only [getTokensLoop, fget, ht]
      by_cases hn : n = 0
      · subst hn
        simp [fset, hk1, hk2]
      · rw [if_neg hn]
        exact ih s k hk1 hk2

theorem getUsed_frame (now : Int) (s : FaithfulStore) (k : String)
    (hk1 : k ≠ TOKEN_KEY) (hk2 : k ≠ CACHE_KEY) :
    (getGlobalTokensUsed faithful now s).2 k = s k := by
  rcases hcc : s CACHE_KEY with _ | n | ⟨w, ts⟩ | ⟨c, r⟩ | _
  · simp only [getGlobalTokensUsed, fget, hcc]
    exact loop_frame now 3 s k hk1 hk2
  · simp only [getGlobalTokensUsed, fget, hcc]
    exact loop_frame now 3 s k hk1 hk2
  · simp only [getGlobalTokensUsed, fget, hcc]
    by_cases hfresh : now - ts < CACHE_TTL * 1000
    · simp only [if_pos hfresh]
    · simp only [if_neg hfresh]
      exact loop_frame now 3 s k hk1 hk2
  · simp only [getGlobalTokensUsed, fget, hcc]
    exact loop_frame now 3 s k hk1 hk2
  · simp only [getGlobalTokensUsed, fget, hcc]
    exact loop_frame now 3 s k hk1 hk2

theorem getUsed_token_preserved (now : Int) (s : FaithfulStore) (n : Int)
    (h : s TOKEN_KEY = .num n) :
    (getGlobalTokensUsed faithful now s).2 TOKEN_KEY = .num n := by
  have hloop : (getTokensLoop faithful now 3 s).2 TOKEN_KEY = .num n := by
    rw [loop_of_num now 2 h]
    show (faithful.set CACHE_KEY (.snapshot n now) s) TOKEN_KEY = .num n
    rw [fset, if_neg token_ne_cache]
    exact h
  rcases hcc : s CACHE_KEY with _ | m | ⟨w, ts⟩ | ⟨c, r⟩ | _
  · simpa only [getGlobalTokensUsed, fget, hcc] using hloop
  · simpa only [getGlobalTokensUsed, fget, hcc] using hloop
  · simp only [getGlobalTokensUsed, fget, hcc]
    by_cases hfresh : now - ts < CACHE_TTL * 1000
    · simp only [if_pos hfresh]
      exact h
    · simpa only [if_neg hfresh] using hloop
  · simpa only [getGlobalTokensUsed, fget, hcc] using hloop
  · simpa only [getGlobalTokensUsed, fget, hcc] using hloop

theorem reconcile_token_preserved (now : Int) (s : FaithfulStore) (n : Int)
    (h : s TOKEN_KEY = .num n) :
    (backgroundReconciliation faithful now s) TOKEN_KEY = .num n := by
  have hif : (if TOKEN_KEY = CACHE_KEY then KVValue.null else s TOKEN_KEY) = .num n := by
    rw [if_neg token_ne_cache]
    exact h
  simp only [backgroundReconciliation, fget, fdel, hif]
  simp [fset, fdel, token_ne_cache, h]

theorem incrementLoop_mismatch {σ : Type} (C : KVClient σ) (now amt : Int)
    (h : MismatchClient C) (fuel : Nat) (s : σ) :
    incrementLoop C now amt (fuel + 1) s =
      if fuel = 0 then
        (.error "Consistency verification failed after 3 attempts",
         incFailStep C now amt s)
      else incrementLoop C now amt fuel (incFailStep C now amt s) := by
  simp only [incrementLoop, incFailStep]
  rw [if_neg (h _ _)]

theorem codeRate_fresh {s : FaithfulStore} (ip : String) (now : Int)
    (h : s (codeRateKey ip) = .null) :
    checkIPRateLimitCode faithful ip now s =
      ({ allowed := true, message := none },
       faithful.set (codeRateKey ip) (.rate 1 (now + 86400000)) s) := by
  simp only [checkIPRateLimitCode, fget, h]

theorem codeRate_consume {s : FaithfulStore} (ip : String) (now c r : Int)
    (h : s (codeRateKey ip) = .rate c r) (h2 : ¬ r < now) (h3 : ¬ c ≥ 4) :
    checkIPRateLimitCode faithful ip now s =
      ({ allowed := true, message := none },
       faithful.set (codeRateKey ip) (.rate (c + 1) r) s) := by
  simp only [checkIPRateLimitCode, fget, h, if_neg h2, if_neg h3]

theorem codeRate_deny {s : FaithfulStore} (ip : String) (now c r : Int)
    (h : s (codeRateKey ip) = .rate c r) (h2 : ¬ r < now) (h3 : c ≥ 4) :
    checkIPRateLimitCode faithful ip now s =
      ({ allowed := false,
         message := some
           s!"Rate limit exceeded. Please try again in approximately {jsCeil (r - now) 3600000} hours." },
       s) := by
  simp only [checkIPRateLimitCode, fget, h, if_neg h2, if_pos h3]

theorem profileRate_fresh {s : FaithfulStore} (ip : String) (now : Int)
    (h : s (profileRateKey ip now) = .null) :
    checkIPRateLimitProfile false faithful ip now s =
      ({ allowed := true, message := none },
       faithful.set (profileRateKey ip now) (.num 1) s) := by
  simp only [checkIPRateLimitProfile, fget, h, Bool.false_eq_true, if_false]

theorem profileRate_consume {s : FaithfulStore} (ip : String) (now c : Int)
    (h : s (profileRateKey ip now) = .num c) (h3 : ¬ c ≥ 8) :
    checkIPRateLimitProfile false faithful ip now s =
      ({ allowed := true, message := none },
       faithful.set (profileRateKey ip now) (.num (c + 1)) s) := by
  simp only [checkIPRateLimitProfile, fget, h, if_neg h3, Bool.false_eq_true, if_false]

theorem profileRate_deny {s : FaithfulStore} (ip : String) (now c : Int)
    (h : s (profileRateKey ip now) = .num c) (h3 : c ≥ 8) :
    checkIPRateLimitProfile false faithful ip now s =
      ({ allowed := false,
         message := some "Daily request limit exceeded for this IP. You can make 8 requests per day." },
       s) := by
  simp only [checkIPRateLimitProfile, fget, h, if_pos h3, Bool.false_eq_true, if_false]

theorem profileKey_ne_codeKey (ip1 : String) (now : Int) (ip2 : String) :
    profileRateKey ip1 now ≠ codeRateKey ip2 := by
  intro h
  have hd := congrArg String.data h
  simp only [profileRateKey, codeRateKey, String.data_append] at hd
  have h3 := congrArg (fun l => l[3]?) hd
  simp only at h3
  rw [List.getElem?_append_left (by simp),
      List.getElem?_append_left (by simp),
      List.getElem?_append_left (by simp)] at h3
  rw [List.getElem?_append_left (by simp)] at h3
  simp at h3

theorem code_ne_profile_key (ip1 : String) (now : Int) (ip2 : String) :
    codeRateKey ip1 ≠ profileRateKey ip2 now :=
  (profileKey_ne_codeKey ip2 now ip1).symm

theorem runMixed_allows (ip : String) (now : Int) :
    ∀ (order : List Bool) (p c : Nat) (s : FaithfulStore),
    p + order.count true ≤ 8 → c + order.count false ≤ 4 →
    s (profileRateKey ip now) = (if p = 0 then .null else .num (p : Int)) →
    s (codeRateKey ip) = (if c = 0 then .null else .rate (c : Int) (now + 86400000)) →
    (runMixed ip now order s).1 = true := by
  intro order
  induction order with
  | nil => intro p c s _ _ _ _; rfl
  | cons b rest ih =>
    intro p c s hp hc hsp hsc
    cases b
    · -- glaze-code admission
      have hc4 : c + (rest.count false + 1) ≤ 4 := by
        simpa [List.count_cons] using hc
      have hrest_p : p + rest.count true ≤ 8 := by
        simpa [List.count_cons] using hp
      by_cases hc0 : c = 0
      · subst hc0
        rw [if_pos rfl] at hsc
        simp only [runMixed, if_false, Bool.false_eq_true, codeRate_fresh ip now hsc]
        rw [ih p 1 _ hrest_p (by omega) ?_ ?_]
        · simp
        · rw [fset, if_neg (profileKey_ne_codeKey ip now ip), hsp]
        · rw [fset, if_pos rfl]
          norm_num
      · rw [if_neg hc0] at hsc
        have hlt : ¬ (c : Int) ≥ 4 := by omega
        have hnr : ¬ (now + 86400000 : Int) < now := by omega
        simp only [runMixed, if_false, Bool.false_eq_true,
          codeRate_consume ip now c (now + 86400000) hsc hnr hlt]
        rw [ih p (c + 1) _ hrest_p (by omega) ?_ ?_]
        · simp
        · rw [fset, if_neg (profileKey_ne_codeKey ip now ip), hsp]
        · rw [fset, if_pos rfl, if_neg (by omega)]
          norm_num
    · -- glaze-profile admission
      have hp8 : p + (rest.count true + 1) ≤ 8 := by
        simpa [List.count_cons] using hp
      have hrest_c : c + rest.count false ≤ 4 := by
        simpa [List.count_cons] using hc
      by_cases hp0 : p = 0
      · subst hp0
        rw [if_pos rfl] at hsp
        simp only [runMixed, if_true, profileRate_fresh ip now hsp]
        rw [ih 1 c _ (by omega) hrest_c ?_ ?_]
        · simp
        · rw [fset, if_pos rfl]
          norm_num
        · rw [fset, if_neg (code_ne_profile_key ip now ip), hsc]
      · rw [if_neg hp0] at hsp
        have hlt : ¬ (p : Int) ≥ 8 := by omega
        simp only [runMixed, if_true, profileRate_consume ip now p hsp hlt]
        rw [ih (p + 1) c _ (by omega) hrest_c ?_ ?_]
        · simp
        · rw [fset, if_pos rfl, if_neg (by omega)]
          norm_num
        · rw [fset, if_neg (code_ne_profile_key ip now ip), hsc]

theorem jsCeil_antitone (r d t1 t2 : Int) (hd : 0 < d) (h : t1 ≤ t2) :
    jsCeil (r - t2) d ≤ jsCeil (r - t1) d := by
  unfold jsCeil
  rw [Int.fdiv_eq_ediv _ hd.le, Int.fdiv_eq_ediv _ hd.le]
  have := Int.ediv_le_ediv hd (by omega : -(r - t1) ≤ -(r - t2))
  omega

theorem synced_storeTok10 : Synced storeTok10 10 :=
  ⟨rfl, fun w ts h => KVValue.noConfusion (show KVValue.null = .snapshot w ts from h)⟩

/-- C1: for every sequence of increment calls executed sequentially
against a store faithfully returning the last value written, starting
from an absent-or-zero counter (and no cache snapshot), every call
returns without error and a subsequent read of the usage returns the sum
of the amounts. -/
theorem c1_sequential_increments_sum (calls : List (Int × Int)) (s0 : FaithfulStore)
    (h : GoodStart s0) :
    ∃ s', runIncrements calls s0 = some s' ∧
      ∀ now, (getGlobalTokensUsed faithful now s').1 = (calls.map Prod.snd).sum := by
  obtain ⟨s', hrun, htr⟩ := runIncrements_tracks calls s0 0 (Or.inr ⟨rfl, h⟩)
  refine ⟨s', hrun, fun now => ?_⟩
  have h1 := (getUsed_tracks now htr).1
  simpa using h1

/-- C1 witness: two increments of 3 and 4 from the empty store succeed
and leave a usage of 7. -/
theorem c1_witness :
    GoodStart storeEmpty ∧
    ∃ s', runIncrements [(0, 3), (6000, 4)] storeEmpty = some s' ∧
      ∀ now, (getGlobalTokensUsed faithful now s').1 = 7 := by
  refine ⟨⟨Or.inl rfl, rfl⟩, ?_⟩
  have h := c1_sequential_increments_sum [(0, 3), (6000, 4)] storeEmpty
    ⟨Or.inl rfl, rfl⟩
  simpa using h

/-- C2: against any store on which every read of the counter directly
after a write returns a different value, increment performs exactly its
three read-modify-write-verify attempts and ends in the consistency
error, never in a total. -/
theorem c2_mismatch_increment_raises {σ : Type} (C : KVClient σ) (now amt : Int)
    (s : σ) (h : MismatchClient C) :
    incrementGlobalTokensKV C now amt s =
      (.error "Consistency verification failed after 3 attempts",
       incFailStep C now amt (incFailStep C now amt (incFailStep C now amt s))) := by
  show incrementLoop C now amt 3 s = _
  rw [show (3 : Nat) = 2 + 1 from rfl, incrementLoop_mismatch C now amt h 2,
      if_neg (by decide : ¬ (2 : Nat) = 0),
      show (2 : Nat) = 1 + 1 from rfl, incrementLoop_mismatch C now amt h 1,
      if_neg (by decide : ¬ (1 : Nat) = 0),
      show (1 : Nat) = 0 + 1 from rfl, incrementLoop_mismatch C now amt h 0,
      if_pos rfl]

theorem advClient_mismatch : MismatchClient advClient := by
  intro v s
  have hval : (advClient.get TOKEN_KEY (advClient.set TOKEN_KEY (.num v) s)).1 =
      .num (v + 1) := rfl
  rw [hval]
  intro hcon
  injection hcon with hv
  omega

/-- C2 witness: on the concrete always-mismatching client, increment(5)
raises the consistency error after exactly three counter writes. -/
theorem c2_witness :
    MismatchClient advClient ∧
    (incrementGlobalTokensKV advClient 0 5 ⟨0, 0⟩).1 =
      .error "Consistency verification failed after 3 attempts" ∧
    (incrementGlobalTokensKV advClient 0 5 ⟨0, 0⟩).2.writes = 3 := by
  refine ⟨advClient_mismatch, ?_, by decide⟩
  rw [c2_mismatch_increment_raises advClient 0 5 ⟨0, 0⟩ advClient_mismatch]

/-- C3: the pre-flight budget check returns not-allowed exactly when the
current usage plus the estimate exceeds the daily limit; at exactly the
limit it allows. -/
theorem c3_budget_check_iff (s : FaithfulStore) (now est : Int) :
    ((checkGlobalTokenLimit faithful now est s).1.allowed = false ↔
      (getGlobalTokensUsed faithful now s).1 + est > MAX_DAILY_TOKENS) ∧
    ((getGlobalTokensUsed faithful now s).1 + est = MAX_DAILY_TOKENS →
      (checkGlobalTokenLimit faithful now est s).1.allowed = true) := by
  constructor
  · simp only [checkGlobalTokenLimit]
    by_cases hgt : (getGlobalTokensUsed faithful now s).1 + est > MAX_DAILY_TOKENS
    · simp [hgt]
    · simp [hgt]
  · intro heq
    have hng : ¬ (getGlobalTokensUsed faithful now s).1 + est > MAX_DAILY_TOKENS := by
      omega
    simp only [checkGlobalTokenLimit]
    rw [if_neg hng]

/-- C3 witness: at usage 1999990 an estimate of 10 hits the limit of
2000000 exactly and is allowed. -/
theorem c3_witness :
    (checkGlobalTokenLimit faithful 0 10 storeNearLimit).1.allowed = true :=
  (c3_budget_check_iff storeNearLimit 0 10).2 (by decide)

/-- C4 counterexample: with a 5-token counter and no cache snapshot, the
budget pre-check writes the cache key, so it does not leave the store
unchanged. -/
theorem c4_counterexample :
    (checkGlobalTokenLimit faithful 0 2500 storeTok5).2 CACHE_KEY ≠
      storeTok5 CACHE_KEY := by
  decide

/-- C4 (amended): the budget pre-check writes no key other than the
counter key and the cache key, and never overwrites a numerically-stored
counter. -/
theorem c4_budget_check_frame (s : FaithfulStore) (now est : Int) :
    (∀ k, k ≠ TOKEN_KEY → k ≠ CACHE_KEY →
      (checkGlobalTokenLimit faithful now est s).2 k = s k) ∧
    (∀ n, s TOKEN_KEY = .num n →
      (checkGlobalTokenLimit faithful now est s).2 TOKEN_KEY = .num n) := by
  have hstate : (checkGlobalTokenLimit faithful now est s).2 =
      (getGlobalTokensUsed faithful now s).2 := by
    simp only [checkGlobalTokenLimit]
    by_cases hgt : (getGlobalTokensUsed faithful now s).1 + est > MAX_DAILY_TOKENS
    · rw [if_pos hgt]
    · rw [if_neg hgt]
  refine ⟨fun k hk1 hk2 => ?_, fun n hn => ?_⟩
  · rw [hstate]
    exact getUsed_frame now s k hk1 hk2
  · rw [hstate]
    exact getUsed_token_preserved now s n hn

/-- C4 witness: on the 5-token store the pre-check leaves an unrelated
key and the counter key unchanged. -/
theorem c4_witness :
    (checkGlobalTokenLimit faithful 0 2500 storeTok5).2 "ip_limit:1.2.3.4:0" =
      storeTok5 "ip_limit:1.2.3.4:0" ∧
    (checkGlobalTokenLimit faithful 0 2500 storeTok5).2 TOKEN_KEY = .num 5 :=
  ⟨(c4_budget_check_frame storeTok5 0 2500).1 _ (by decide) (by decide),
   (c4_budget_check_frame storeTok5 0 2500).2 5 (by decide)⟩

/-- C5 counterexample: with the counter stored at 100 but a fresh cache
snapshot claiming 5, an increment of the non-negative amount 0 rewrites
the stored counter down to 5. -/
theorem c5_counterexample :
    storeStaleCache TOKEN_KEY = .num 100 ∧
    (incrementGlobalTokensKV faithful 0 0 storeStaleCache).1 = .ok 5 ∧
    (incrementGlobalTokensKV faithful 0 0 storeStaleCache).2 TOKEN_KEY = .num 5 := by
  refine ⟨by decide, rfl, by decide⟩

/-- C5 (amended): on states whose cache snapshot (when present) agrees
with the stored counter, a usage read and the reconciliation keep the
stored counter, and an increment by a non-negative amount replaces it by
the no-smaller value counter + amount. -/
theorem c5_monotonic_when_agreed (s : FaithfulStore) (now a n : Int)
    (ha : 0 ≤ a) (h : Synced s n) :
    (getGlobalTokensUsed faithful now s).2 TOKEN_KEY = .num n ∧
    ((incrementGlobalTokensKV faithful now a s).2 TOKEN_KEY = .num (n + a) ∧
      n ≤ n + a) ∧
    (backgroundReconciliation faithful now s) TOKEN_KEY = .num n := by
  refine ⟨getUsed_token_preserved now s n h.1, ⟨?_, by omega⟩,
    reconcile_token_preserved now s n h.1⟩
  exact ((increment_tracks now a (Or.inl h)).2).1

/-- C5 witness: from an agreed 10-token store, increment(5) stores 15. -/
theorem c5_witness :
    (0 : Int) ≤ 5 ∧
    (incrementGlobalTokensKV faithful 0 5 storeTok10).2 TOKEN_KEY = .num 15 := by
  refine ⟨by decide, ?_⟩
  have h := (c5_monotonic_when_agreed storeTok10 0 5 10 (by decide)
    synced_storeTok10).2.1.1
  simpa using h

/-- C9: with the configured secret matching, the reset endpoint answers a
200 success with tokensUsed 0 and zeroes the key `global_tokens_used`,
but the glaze endpoints' counter `global_tokens_used_v3` keeps its value
100 and a subsequent usage read still returns 100; a wrong secret changes
nothing and answers 401. -/
theorem c9_reset_wrong_key :
    (resetTokensPOST envReset (some "s3cr3t") faithful storeTok100).1.status = 200 ∧
    (resetTokensPOST envReset (some "s3cr3t") faithful storeTok100).1.tokensUsed = some 0 ∧
    (resetTokensPOST envReset (some "s3cr3t") faithful storeTok100).2 RESET_TOKEN_KEY = .num 0 ∧
    (resetTokensPOST envReset (some "s3cr3t") faithful storeTok100).2 TOKEN_KEY = .num 100 ∧
    (getGlobalTokensUsed faithful 0
      (resetTokensPOST envReset (some "s3cr3t") faithful storeTok100).2).1 = 100 ∧
    resetTokensPOST envReset (some "wrong") faithful storeTok100 =
      (errResponse 401 "Invalid secret", storeTok100) := by
  refine ⟨by decide, by decide, by decide, by decide, by decide, ?_⟩
  constructor

/-- C6 counterexample: a honeypot-filled request that passes every
earlier check gets a 400 error (not a 200 success body) from the
glaze-profile endpoint. -/
theorem c6_counterexample :
    (glazeProfilePOST envProd oracleBase faithful reqHoneypot 0 storeEmpty).1.status = 400 ∧
    (glazeProfilePOST envProd oracleBase faithful reqHoneypot 0 storeEmpty).1.glaze = none ∧
    (glazeProfilePOST envProd oracleBase faithful reqHoneypot 0 storeEmpty).1.error =
      some "Invalid request" := by
  refine ⟨by decide, by decide, by decide⟩

/-- C6 (amended): a honeypot-filled request that passes the checks before
the honeypot test triggers no external call; the glaze-code endpoint
answers the canned 200 success body with tokensUsed 0, while the
glaze-profile endpoint answers a 400 error; in both cases the only store
activity is the rate-limit consumption that already happened. -/
theorem c6_honeypot_behavior {σ : Type} (env : Env) (O : Oracle) (C : KVClient σ)
    (req : Request) (now : Int) (s : σ)
    (hhp : req.honeypot ≠ "")
    (ho : req.originOk = true) (hu : req.userAgentOk = true) :
    (∀ c, req.code = some c → c ≠ "" →
      (checkIPRateLimitCode C req.clientIP now s).1.allowed = true →
      glazeCodePOST env O C req now s =
        (okResponse cannedCodeGlaze 0, [],
         (checkIPRateLimitCode C req.clientIP now s).2)) ∧
    ((∀ n, req.contentLength = some n → ¬ n > 1024) →
      (checkIPRateLimitProfile env.isDev C req.clientIP now s).1.allowed = true →
      glazeProfilePOST env O C req now s =
        (errResponse 400 "Invalid request", [],
         (checkIPRateLimitProfile env.isDev C req.clientIP now s).2)) := by
  constructor
  · intro c hc hcne hrate
    simp [glazeCodePOST, hc, hcne, ho, hu, hrate, hhp]
  · intro hcl hrate
    have hcl' : (match req.contentLength with
        | some n => decide (n > 1024) | none => false) = false := by
      cases hq : req.contentLength with
      | none => rfl
      | some n => simp [hcl n hq]
    simp [glazeProfilePOST, hcl', hrate, ho, hu, hhp]

/-- C6 witness: the concrete honeypot request against the empty store. -/
theorem c6_witness :
    glazeCodePOST envProd oracleBase faithful reqHoneypot 0 storeEmpty =
      (okResponse cannedCodeGlaze 0, [],
       (checkIPRateLimitCode faithful "1.2.3.4" 0 storeEmpty).2) ∧
    glazeProfilePOST envProd oracleBase faithful reqHoneypot 0 storeEmpty =
      (errResponse 400 "Invalid request", [],
       (checkIPRateLimitProfile false faithful "1.2.3.4" 0 storeEmpty).2) := by
  have h := c6_honeypot_behavior envProd oracleBase faithful reqHoneypot 0 storeEmpty
    (by decide) (by decide) (by decide)
  exact ⟨h.1 "int main" rfl (by decide) (by decide),
    h.2 (fun n hn => by injection hn with h2; subst h2; decide) (by decide)⟩

/-- C7 counterexample: a request that fails the origin allow-list (the
claim's check 2) has already consumed rate-limit quota: the glaze-profile
handler answers 403 but the client's rate record went from absent to 1,
because the rate limiter actually runs before the origin check. -/
theorem c7_counterexample :
    storeEmpty (profileRateKey "1.2.3.4" 0) = .null ∧
    (glazeProfilePOST envProd oracleBase faithful reqBadOrigin 0 storeEmpty).1.status = 403 ∧
    (glazeProfilePOST envProd oracleBase faithful reqBadOrigin 0 storeEmpty).2.2
      (profileRateKey "1.2.3.4" 0) = .num 1 := by
  refine ⟨rfl, by decide, by decide⟩

/-- C7 (amended): the glaze-profile gatekeeper short-circuits in the
source order body-size, rate limiter, origin, user-agent, honeypot, input
validation, API-key configuration, budget pre-check, and the external
calls happen only when every one of these passed; consequently a request
failing the origin or any later check has already consumed rate-limit
quota, while an oversized request leaves the store untouched. -/
theorem c7_gatekeeper_order {σ : Type} (env : Env) (O : Oracle) (C : KVClient σ)
    (req : Request) (now : Int) (s : σ) :
    ((∃ n, req.contentLength = some n ∧ n > 1024) →
      glazeProfilePOST env O C req now s =
        (errResponse 413 "Request too large", [], s)) ∧
    ((∀ n, req.contentLength = some n → ¬ n > 1024) →
      ((checkIPRateLimitProfile env.isDev C req.clientIP now s).1.allowed = false →
        glazeProfilePOST env O C req now s =
          (errResponse 429
            ((checkIPRateLimitProfile env.isDev C req.clientIP now s).1.message.getD ""),
           [], (checkIPRateLimitProfile env.isDev C req.clientIP now s).2)) ∧
      ((checkIPRateLimitProfile env.isDev C req.clientIP now s).1.allowed = true →
        (req.originOk = false →
          glazeProfilePOST env O C req now s =
            (errResponse 403 "Invalid request origin", [],
             (checkIPRateLimitProfile env.isDev C req.clientIP now s).2)) ∧
        (req.originOk = true → req.userAgentOk = false →
          glazeProfilePOST env O C req now s =
            (errResponse 403 "Invalid request", [],
             (checkIPRateLimitProfile env.isDev C req.clientIP now s).2)) ∧
        (req.originOk = true → req.userAgentOk = true → req.honeypot ≠ "" →
          glazeProfilePOST env O C req now s =
            (errResponse 400 "Invalid request", [],
             (checkIPRateLimitProfile env.isDev C req.clientIP now s).2)) ∧
        (req.originOk = true → req.userAgentOk = true → req.honeypot = "" →
          req.username = none →
          glazeProfilePOST env O C req now s =
            (errResponse 400 "Username is required", [],
             (checkIPRateLimitProfile env.isDev C req.clientIP now s).2)))) ∧
    ((glazeProfilePOST env O C req now s).2.1 ≠ [] →
      (match req.contentLength with
        | some n => decide (n > 1024) | none => false) = false ∧
      (checkIPRateLimitProfile env.isDev C req.clientIP now s).1.allowed = true ∧
      req.originOk = true ∧ req.userAgentOk = true ∧ req.honeypot = "" ∧
      (∃ u, req.username = some u ∧ u ≠ "" ∧
        ¬ ((jsTrim u).length < 1 ∨ (jsTrim u).length > 24) ∧
        (jsTrim u).data.all validUsernameChar = true) ∧
      env.hasOpenAIKey = true ∧
      (checkGlobalTokenLimit C now 2500
        (checkIPRateLimitProfile env.isDev C req.clientIP now s).2).1.allowed = true) := by
  refine ⟨?_, ?_, ?_⟩
  · rintro ⟨n, hn, hgt⟩
    have hsz : (match req.contentLength with
        | some n => decide (n > 1024) | none => false) = true := by
      rw [hn]
      simpa using hgt
    simp [glazeProfilePOST, hsz]
  · intro hcl
    have hsz : (match req.contentLength with
        | some n => decide (n > 1024) | none => false) = false := by
      cases hq : req.contentLength with
      | none => rfl
      | some n => simp [hcl n hq]
    refine ⟨fun hrate => by simp [glazeProfilePOST, hsz, hrate], fun hrate => ?_⟩
    refine ⟨fun ho => by simp [glazeProfilePOST, hsz, hrate, ho],
      fun ho hu => by simp [glazeProfilePOST, hsz, hrate, ho, hu],
      fun ho hu hhp => by simp [glazeProfilePOST, hsz, hrate, ho, hu, hhp],
      fun ho hu hhp hun => by simp [glazeProfilePOST, hsz, hrate, ho, hu, hhp, hun]⟩
  · intro heff
    by_cases hsz : (match req.contentLength with
        | some n => decide (n > 1024) | none => false) = true
    · exact absurd (by simp [glazeProfilePOST, hsz]) heff
    · have hsz2 : (match req.contentLength with
          | some n => decide (n > 1024) | none => false) = false := by
        simpa using hsz
      by_cases hrate : (checkIPRateLimitProfile env.isDev C req.clientIP now s).1.allowed = true
      · by_cases ho : req.originOk = true
        · by_cases hu : req.userAgentOk = true
          · by_cases hhp : req.honeypot = ""
            · rcases hun : req.username with _ | u
              · exact absurd (by simp [glazeProfilePOST, hsz2, hrate, ho, hu, hhp, hun]) heff
              · by_cases hu0 : u = ""
                · exact absurd
                    (by simp [glazeProfilePOST, hsz2, hrate, ho, hu, hhp, hun, hu0]) heff
                · by_cases hlen : (jsTrim u).length = 0 ∨ 24 < (jsTrim u).length
                  · exact absurd
                      (by simp [glazeProfilePOST, hsz2, hrate, ho, hu, hhp, hun, hu0, hlen])
                      heff
                  · by_cases hvc : ∃ x ∈ (jsTrim u).data, validUsernameChar x = false
                    · exact absurd (by simp [glazeProfilePOST, hsz2, hrate, ho, hu,
                        hhp, hun, hu0, hlen, hvc]) heff
                    · by_cases hkey : env.hasOpenAIKey = true
                      · by_cases hpre : (checkGlobalTokenLimit C now 2500
                            (checkIPRateLimitProfile env.isDev C req.clientIP now s).2).1.allowed = true
                        · have hlen' : ¬ ((jsTrim u).length < 1 ∨ (jsTrim u).length > 24) := by
                            intro hcon
                            apply hlen
                            rcases hcon with hcon | hcon
                            · exact Or.inl (by omega)
                            · exact Or.inr (by omega)
                          have hvc' : (jsTrim u).data.all validUsernameChar = true := by
                            rw [List.all_eq_true]
                            intro x hx
                            by_contra hb
                            exact hvc ⟨x, hx, by simpa using hb⟩
                          exact ⟨hsz2, hrate, ho, hu, hhp,
                            ⟨u, rfl, hu0, hlen', hvc'⟩, hkey, hpre⟩
                        · have hpre2 : (checkGlobalTokenLimit C now 2500
                              (checkIPRateLimitProfile env.isDev C req.clientIP now s).2).1.allowed
                              = false := by simpa using hpre
                          exact absurd (by simp [glazeProfilePOST, hsz2, hrate, ho, hu,
                            hhp, hun, hu0, hlen, hvc, hkey, hpre2]) heff
                      · have hkey2 : env.hasOpenAIKey = false := by simpa using hkey
                        exact absurd (by simp [glazeProfilePOST, hsz2, hrate, ho, hu,
                          hhp, hun, hu0, hlen, hvc, hkey2]) heff
            · exact absurd (by simp [glazeProfilePOST, hsz2, hrate, ho, hu, hhp]) heff
          · have hu2 : req.userAgentOk = false := by simpa using hu
            exact absurd (by simp [glazeProfilePOST, hsz2, hrate, ho, hu2]) heff
        · have ho2 : req.originOk = false := by simpa using ho
          exact absurd (by simp [glazeProfilePOST, hsz2, hrate, ho2]) heff
      · have hrate2 : (checkIPRateLimitProfile env.isDev C req.clientIP now s).1.allowed
            = false := by simpa using hrate
        exact absurd (by simp [glazeProfilePOST, hsz2, hrate2]) heff

/-- C7 witness: the denied-origin case at a concrete request: the handler
answers 403 with the store already carrying the consumed quota. -/
theorem c7_witness :
    glazeProfilePOST envProd oracleBase faithful reqBadOrigin 0 storeEmpty =
      (errResponse 403 "Invalid request origin", [],
       (checkIPRateLimitProfile false faithful "1.2.3.4" 0 storeEmpty).2) := by
  have h := ((c7_gatekeeper_order envProd oracleBase faithful reqBadOrigin 0
    storeEmpty).2.1 (fun n hn => by injection hn with h2; subst h2; decide)).2
    (by decide)
  exact h.1 (by decide)

theorem runProfileRate_count (ip : String) (now : Int) :
    ∀ (m p : Nat) (s : FaithfulStore),
    1 ≤ p →
    s (profileRateKey ip now) = .num (p : Int) →
    p + m ≤ 8 →
    (runProfileRate ip now m s) (profileRateKey ip now) = .num ((p + m : Nat) : Int) := by
  intro m
  induction m with
  | zero => intro p s _ h _; simpa using h
  | succ k ih =>
    intro p s hp h hm
    have hlt : ¬ (p : Int) ≥ 8 := by omega
    have hstep : (checkIPRateLimitProfile false faithful ip now s).2 =
        faithful.set (profileRateKey ip now) (.num ((p : Int) + 1)) s := by
      rw [profileRate_consume ip now p h hlt]
    have hinv : (faithful.set (profileRateKey ip now) (.num ((p : Int) + 1)) s)
        (profileRateKey ip now) = .num (((p + 1 : Nat) : Int)) := by
      rw [fset, if_pos rfl]
      norm_num
    have harith : p + (k + 1) = p + 1 + k := by omega
    rw [harith]
    show (runProfileRate ip now k (checkIPRateLimitProfile false faithful ip now s).2)
        (profileRateKey ip now) = _
    rw [hstep]
    exact ih (p + 1) _ (by omega) hinv (by omega)

theorem runCodeRate_count (ip : String) (now : Int) :
    ∀ (m p : Nat) (s : FaithfulStore),
    1 ≤ p →
    s (codeRateKey ip) = .rate (p : Int) (now + 86400000) →
    p + m ≤ 4 →
    (runCodeRate ip now m s) (codeRateKey ip) =
      .rate ((p + m : Nat) : Int) (now + 86400000) := by
  intro m
  induction m with
  | zero => intro p s _ h _; simpa using h
  | succ k ih =>
    intro p s hp h hm
    have hlt : ¬ (p : Int) ≥ 4 := by omega
    have hnr : ¬ (now + 86400000 : Int) < now := by omega
    have hstep : (checkIPRateLimitCode faithful ip now s).2 =
        faithful.set (codeRateKey ip) (.rate ((p : Int) + 1) (now + 86400000)) s := by
      rw [codeRate_consume ip now (p : Int) (now + 86400000) h hnr hlt]
    have hinv : (faithful.set (codeRateKey ip) (.rate ((p : Int) + 1) (now + 86400000)) s)
        (codeRateKey ip) = .rate (((p + 1 : Nat) : Int)) (now + 86400000) := by
      rw [fset, if_pos rfl]
      norm_num
    have harith : p + (k + 1) = p + 1 + k := by omega
    rw [harith]
    show (runCodeRate ip now k (checkIPRateLimitCode faithful ip now s).2)
        (codeRateKey ip) = _
    rw [hstep]
    exact ih (p + 1) _ (by omega) hinv (by omega)

/-- C8 counterexample: a fresh client is admitted 8 times by the
glaze-profile limiter and the 9th call is denied, but the denial message
is the fixed string with no hour estimate at all. -/
theorem c8_counterexample :
    (runMixed "1.2.3.4" 0 [true, true, true, true, true, true, true, true] storeEmpty).1
      = true ∧
    (checkIPRateLimitProfile false faithful "1.2.3.4" 0
      (runMixed "1.2.3.4" 0 [true, true, true, true, true, true, true, true]
        storeEmpty).2).1 =
      { allowed := false,
        message := some "Daily request limit exceeded for this IP. You can make 8 requests per day." } ∧
    jsIncludes "Daily request limit exceeded for this IP. You can make 8 requests per day."
      "hour" = false := by
  refine ⟨by decide, by decide, by decide⟩

/-- C8 (amended): the glaze-code limiter admits a fresh client exactly 4
times in one window (record created at count 1, incremented per allowed
call) and denies the 5th with a message estimating the remaining hours,
an estimate that is non-increasing as the current time approaches the
stored reset time; the glaze-profile limiter admits exactly 8 and denies
the 9th with a fixed message carrying no hour estimate. -/
theorem c8_rate_limit_window (ip : String) (now : Int) (s : FaithfulStore) :
    (s (codeRateKey ip) = .null →
      (checkIPRateLimitCode faithful ip now s).1 =
        { allowed := true, message := none } ∧
      (checkIPRateLimitCode faithful ip now s).2 (codeRateKey ip) =
        .rate 1 (now + 86400000) ∧
      (runCodeRate ip now 4 s) (codeRateKey ip) = .rate 4 (now + 86400000) ∧
      (checkIPRateLimitCode faithful ip now (runCodeRate ip now 4 s)).1 =
        { allowed := false,
          message := some "Rate limit exceeded. Please try again in approximately 24 hours." }) ∧
    (∀ c r t, s (codeRateKey ip) = .rate c r → ¬ r < t → c ≥ 4 →
      (checkIPRateLimitCode faithful ip t s).1 =
        { allowed := false,
          message := some
            s!"Rate limit exceeded. Please try again in approximately {jsCeil (r - t) 3600000} hours." }) ∧
    (∀ r t1 t2 : Int, t1 ≤ t2 →
      jsCeil (r - t2) 3600000 ≤ jsCeil (r - t1) 3600000) ∧
    (s (profileRateKey ip now) = .null →
      (runProfileRate ip now 8 s) (profileRateKey ip now) = .num 8 ∧
      (checkIPRateLimitProfile false faithful ip now (runProfileRate ip now 8 s)).1 =
        { allowed := false,
          message := some "Daily request limit exceeded for this IP. You can make 8 requests per day." } ∧
      jsIncludes "Daily request limit exceeded for this IP. You can make 8 requests per day."
        "hour" = false) := by
  refine ⟨?_, ?_, ?_, ?_⟩
  · intro h
    have hfirst := codeRate_fresh ip now h
    have hs1 : (checkIPRateLimitCode faithful ip now s).2 =
        faithful.set (codeRateKey ip) (.rate 1 (now + 86400000)) s := by
      rw [hfirst]
    have hs1key : (faithful.set (codeRateKey ip) (.rate 1 (now + 86400000)) s)
        (codeRateKey ip) = .rate ((1 : Nat) : Int) (now + 86400000) := by
      rw [fset, if_pos rfl]
      norm_num
    have hrun : (runCodeRate ip now 4 s) (codeRateKey ip) =
        .rate ((1 + 3 : Nat) : Int) (now + 86400000) := by
      show (runCodeRate ip now 3 (checkIPRateLimitCode faithful ip now s).2)
        (codeRateKey ip) = _
      rw [hs1]
      exact runCodeRate_count ip now 3 1 _ (by omega) hs1key (by omega)
    refine ⟨by rw [hfirst], by rw [hs1]; exact hs1key, by simpa using hrun, ?_⟩
    have hden := codeRate_deny ip now 4 (now + 86400000)
      (by simpa using hrun) (by omega) (by omega)
    rw [hden]
    have harith : now + 86400000 - now = (86400000 : Int) := by ring
    rw [harith]
    have hmsg : (s!"Rate limit exceeded. Please try again in approximately {jsCeil (86400000 : Int) 3600000} hours." : String) =
        "Rate limit exceeded. Please try again in approximately 24 hours." := rfl
    rw [hmsg]
  · intro c r t h h2 h3
    rw [codeRate_deny ip t c r h h2 h3]
  · intro r t1 t2 hle
    exact jsCeil_antitone r 3600000 t1 t2 (by norm_num) hle
  · intro h
    have hfirst := profileRate_fresh ip now h
    have hs1 : (checkIPRateLimitProfile false faithful ip now s).2 =
        faithful.set (profileRateKey ip now) (.num 1) s := by
      rw [hfirst]
    have hs1key : (faithful.set (profileRateKey ip now) (.num 1) s)
        (profileRateKey ip now) = .num ((1 : Nat) : Int) := by
      rw [fset, if_pos rfl]
      norm_num
    have hrun : (runProfileRate ip now 8 s) (profileRateKey ip now) =
        .num ((1 + 7 : Nat) : Int) := by
      show (runProfileRate ip now 7 (checkIPRateLimitProfile false faithful ip now s).2)
        (profileRateKey ip now) = _
      rw [hs1]
      exact runProfileRate_count ip now 7 1 _ (by omega) hs1key (by omega)
    refine ⟨by simpa using hrun, ?_, by decide⟩
    rw [profileRate_deny ip now 8 (by simpa using hrun) (by omega)]

/-- C8 witness: the concrete client against the empty store at time 0:
four admissions, then the 24-hour denial. -/
theorem c8_witness :
    (runCodeRate "ip" 0 4 storeEmpty) (codeRateKey "ip") = .rate 4 86400000 ∧
    (checkIPRateLimitCode faithful "ip" 0 (runCodeRate "ip" 0 4 storeEmpty)).1 =
      { allowed := false,
        message := some "Rate limit exceeded. Please try again in approximately 24 hours." } := by
  have h := (c8_rate_limit_window "ip" 0 storeEmpty).1 rfl
  exact ⟨by simpa using h.2.2.1, h.2.2.2⟩

theorem profileRate_frame (ip : String) (now : Int) (s : FaithfulStore) (k : String)
    (hk : k ≠ profileRateKey ip now) :
    (checkIPRateLimitProfile false faithful ip now s).2 k = s k := by
  rcases h : s (profileRateKey ip now) with _ | n | ⟨w, ts⟩ | ⟨c, r⟩ | _
  · rw [profileRate_fresh ip now h]
    show (faithful.set (profileRateKey ip now) (.num 1) s) k = s k
    rw [fset, if_neg hk]
  · by_cases hn : n ≥ 8
    · rw [profileRate_deny ip now n h hn]
    · rw [profileRate_consume ip now n h hn]
      show (faithful.set (profileRateKey ip now) (.num (n + 1)) s) k = s k
      rw [fset, if_neg hk]
  · simp only [checkIPRateLimitProfile, fget, h, Bool.false_eq_true, if_false]
    rw [fset, if_neg hk]
  · simp only [checkIPRateLimitProfile, fget, h, Bool.false_eq_true, if_false]
    rw [fset, if_neg hk]
  · simp only [checkIPRateLimitProfile, fget, h, Bool.false_eq_true, if_false]
    rw [fset, if_neg hk]

theorem codeRate_frame (ip : String) (now : Int) (s : FaithfulStore) (k : String)
    (hk : k ≠ codeRateKey ip) :
    (checkIPRateLimitCode faithful ip now s).2 k = s k := by
  rcases h : s (codeRateKey ip) with _ | n | ⟨w, ts⟩ | ⟨c, r⟩ | _
  · rw [codeRate_fresh ip now h]
    show (faithful.set (codeRateKey ip) (.rate 1 (now + 86400000)) s) k = s k
    rw [fset, if_neg hk]
  · simp only [checkIPRateLimitCode, fget, h]
    rw [fset, if_neg hk]
  · simp only [checkIPRateLimitCode, fget, h]
    rw [fset, if_neg hk]
  · by_cases hr : r < now
    · simp only [checkIPRateLimitCode, fget, h, if_pos hr]
      rw [fset, if_neg hk]
    · by_cases hc : c ≥ 4
      · rw [codeRate_deny ip now c r h hr hc]
      · rw [codeRate_consume ip now c r h hr hc]
        show (faithful.set (codeRateKey ip) (.rate (c + 1) r) s) k = s k
        rw [fset, if_neg hk]
  · simp only [checkIPRateLimitCode, fget, h]
    rw [fset, if_neg hk]

theorem profileRate_reads_own (ip : String) (now : Int) (s t : FaithfulStore)
    (h : s (profileRateKey ip now) = t (profileRateKey ip now)) :
    (checkIPRateLimitProfile false faithful ip now s).1 =
      (checkIPRateLimitProfile false faithful ip now t).1 := by
  simp only [checkIPRateLimitProfile, fget, h, Bool.false_eq_true, if_false]
  rcases ht : t (profileRateKey ip now) with _ | n | ⟨w, ts⟩ | ⟨c, r⟩ | _
  · simp [ht]
  · simp only [ht]
    split <;> rfl
  · simp [ht]
  · simp [ht]
  · simp [ht]

theorem codeRate_reads_own (ip : String) (now : Int) (s t : FaithfulStore)
    (h : s (codeRateKey ip) = t (codeRateKey ip)) :
    (checkIPRateLimitCode faithful ip now s).1 =
      (checkIPRateLimitCode faithful ip now t).1 := by
  simp only [checkIPRateLimitCode, fget, h]
  rcases ht : t (codeRateKey ip) with _ | n | ⟨w, ts⟩ | ⟨c, r⟩ | _
  · simp [ht]
  · simp [ht]
  · simp [ht]
  · simp only [ht]
    split
    · rfl
    · split <;> rfl
  · simp [ht]

/-- C10: the two endpoints' rate records live in disjoint key namespaces
(`ip_limit:...` vs `ip_rate_limit:...`) with independent maxima (8 for
glaze-profile, 4 for glaze-code): each limiter writes no key but its own,
its decision depends only on its own key, and a single client is admitted
through any interleaving of up to 8 profile and up to 4 code requests in
one day. -/
theorem c10_rate_namespaces_independent :
    (∀ (ip1 : String) (now1 : Int) (ip2 : String),
      profileRateKey ip1 now1 ≠ codeRateKey ip2) ∧
    (∀ (ip : String) (now : Int) (s : FaithfulStore) (k : String),
      k ≠ profileRateKey ip now →
      (checkIPRateLimitProfile false faithful ip now s).2 k = s k) ∧
    (∀ (ip : String) (now : Int) (s : FaithfulStore) (k : String),
      k ≠ codeRateKey ip →
      (checkIPRateLimitCode faithful ip now s).2 k = s k) ∧
    (∀ (ip : String) (now : Int) (s t : FaithfulStore),
      s (profileRateKey ip now) = t (profileRateKey ip now) →
      (checkIPRateLimitProfile false faithful ip now s).1 =
        (checkIPRateLimitProfile false faithful ip now t).1) ∧
    (∀ (ip : String) (now : Int) (s t : FaithfulStore),
      s (codeRateKey ip) = t (codeRateKey ip) →
      (checkIPRateLimitCode faithful ip now s).1 =
        (checkIPRateLimitCode faithful ip now t).1) ∧
    (∀ (ip : String) (now : Int) (order : List Bool) (s : FaithfulStore),
      order.count true ≤ 8 → order.count false ≤ 4 →
      s (profileRateKey ip now) = .null → s (codeRateKey ip) = .null →
      (runMixed ip now order s).1 = true) := by
  refine ⟨profileKey_ne_codeKey, profileRate_frame, codeRate_frame,
    profileRate_reads_own, codeRate_reads_own, ?_⟩
  intro ip now order s h8 h4 hp hc
  exact runMixed_allows ip now order 0 0 s (by simpa using h8) (by simpa using h4)
    (by simpa using hp) (by simpa using hc)

/-- C10 witness: the three-key fact and a concrete interleaving of 8
profile admissions and 4 code admissions, all allowed from a fresh
store. -/
theorem c10_witness :
    profileRateKey "1.2.3.4" 0 ≠ codeRateKey "1.2.3.4" ∧
    (runMixed "1.2.3.4" 0
      [true, false, true, true, false, true, false, true, true, false, true, true]
      storeEmpty).1 = true := by
  refine ⟨c10_rate_namespaces_independent.1 "1.2.3.4" 0 "1.2.3.4", ?_⟩
  exact c10_rate_namespaces_independent.2.2.2.2.2 "1.2.3.4" 0 _ storeEmpty
    (by decide) (by decide) rfl rfl

end CfGlaze
